import Mathlib

/-!
Verification model of the brokkoli-analysis add-on.

The repository contains two parallel implementation trees:
  * `rootfs/opt/brokkoli_analysis/...` — modelled below in namespace `Rootfs`;
  * `brokkoli-analysis/...` (including its own `rootfs/opt/brokkoli_analysis/...`) —
    modelled below in namespace `Addon`.

Shared conventions of the shallow embedding:
  * Python dicts are association lists with unique keys, in insertion order
    (`dictGet`, `dictSet`, `dictRemove`, `dictUpdate`).
  * Python values that flow into MQTT payloads are modelled by `PyValue`
    (ints, strings, booleans); `pyStr` is Python `str(...)`, `pyJson` is
    `json.dumps(...)` on these values.
  * Images are dimension pairs with a pixel function; the HSV conversion plus
    `cv2.inRange` threshold test is a per-pixel predicate, abstracted as an
    `isGreen : Pixel → Bool` parameter (both steps of the source are pixelwise).
  * The broker is modelled as accepting every publish from a connected client
    (paho-mqtt returns `MQTT_ERR_SUCCESS` once the message is queued), so the
    `result.rc != MQTT_ERR_SUCCESS` branches of the source are never taken;
    the `connected` flag and the registration table drive all failure paths.
-/

/-- Association-list lookup, modelling Python `d[k]` / `d.get(k)` on a dict
whose entries are kept in insertion order. -/
def dictGet {α : Type} (m : List (String × α)) (k : String) : Option α :=
  match m with
  | [] => none
  | kv :: rest => if kv.1 = k then some kv.2 else dictGet rest k

/-- Association-list assignment, modelling Python `d[k] = v`: overwrite in
place if the key exists, otherwise append at the end. -/
def dictSet {α : Type} (m : List (String × α)) (k : String) (v : α) :
    List (String × α) :=
  match m with
  | [] => [(k, v)]
  | kv :: rest => if kv.1 = k then (k, v) :: rest else kv :: dictSet rest k v

/-- Association-list deletion, modelling Python `del d[k]` on a dict (which
holds at most one entry per key): all entries with key `k` are dropped. -/
def dictRemove {α : Type} (m : List (String × α)) (k : String) :
    List (String × α) :=
  m.filter (fun kv => kv.1 ≠ k)

/-- Modelling Python `d.update(new)`: assign every entry of `new` in order. -/
def dictUpdate {α : Type} (m new : List (String × α)) : List (String × α) :=
  new.foldl (fun acc kv => dictSet acc kv.1 kv.2) m

/-- ASCII lower-casing of one character (`str.lower` on the names used here). -/
def asciiLower (c : Char) : Char :=
  if 'A' ≤ c ∧ c ≤ 'Z' then Char.ofNat (c.toNat + 32) else c

/-- ASCII upper-casing of one character. -/
def asciiUpper (c : Char) : Char :=
  if 'a' ≤ c ∧ c ≤ 'z' then Char.ofNat (c.toNat - 32) else c

/-- Whether a character is an ASCII letter. -/
def isAsciiAlpha (c : Char) : Bool :=
  ('a' ≤ c && c ≤ 'z') || ('A' ≤ c && c ≤ 'Z')

/-- Python `str.lower()` on the ASCII names appearing in this program. -/
def pyLower (s : String) : String := ⟨s.data.map asciiLower⟩

/-- Replace every (non-overlapping, left-to-right) occurrence of `pat` in a
character list, with a fuel argument so that the recursion is structural; the
fuel is instantiated with the length of the scanned list, which suffices. -/
def replaceFuel (pat rep : List Char) : Nat → List Char → List Char
  | _, [] => []
  | 0, s => s
  | fuel + 1, c :: rest =>
    if pat ≠ [] ∧ pat.isPrefixOf (c :: rest) then
      rep ++ replaceFuel pat rep fuel (List.drop pat.length (c :: rest))
    else c :: replaceFuel pat rep fuel rest

/-- Python `s.replace(pat, rep)` (all occurrences). -/
def pyReplace (s pat rep : String) : String :=
  ⟨replaceFuel pat.data rep.data s.data.length s.data⟩

/-- Python `str.title()` restricted to ASCII: the first letter of every
alphabetic run is upper-cased, the rest lower-cased. -/
def titleChars : Bool → List Char → List Char
  | _, [] => []
  | prevAlpha, c :: rest =>
    (if isAsciiAlpha c then (if prevAlpha then asciiLower c else asciiUpper c)
     else c) :: titleChars (isAsciiAlpha c) rest

/-- Python `s.title()` on ASCII strings. -/
def pyTitle (s : String) : String := ⟨titleChars false s.data⟩

/-- The `name.lower().replace(' ', '_')` normalization used by the rootfs
processor and coordinator for source and processor names. -/
def normalizeName (s : String) : String := pyReplace (pyLower s) " " "_"

/-- Python values that the program serializes into MQTT payloads. -/
inductive PyValue where
  | int (n : ℤ)
  | str (s : String)
  | bool (b : Bool)
deriving DecidableEq

/-- Python `str(...)` on a `PyValue`. -/
def pyStr : PyValue → String
  | .int n => toString n
  | .str s => s
  | .bool b => if b then "True" else "False"

/-- JSON string escaping (quotes and backslashes; no control characters occur
in the strings of this program). -/
def jsonEscapeChar (c : Char) : List Char :=
  if c = '"' then ['\\', '"']
  else if c = '\\' then ['\\', '\\']
  else [c]

/-- JSON rendering of a string literal. -/
def jsonQuote (s : String) : String :=
  ⟨'"' :: (s.data.map jsonEscapeChar).flatten ++ ['"']⟩

/-- Python `json.dumps(...)` on a `PyValue`. -/
def pyJson : PyValue → String
  | .int n => toString n
  | .str s => jsonQuote s
  | .bool b => if b then "true" else "false"

/-- Whether a value is numeric for Python `isinstance(value, (int, float))`
(booleans are a subclass of `int` in Python). -/
def isNumeric : PyValue → Bool
  | .int _ => true
  | .str _ => false
  | .bool _ => true

/-- An RGB pixel as stored in the decoded frames (red, green, blue). -/
def Pixel : Type := ℕ × ℕ × ℕ

/-- A decoded frame: a height × width grid of RGB pixels (numpy array of
shape `(height, width, 3)`). -/
structure Image where
  height : ℕ
  width : ℕ
  pixel : ℕ → ℕ → Pixel

/-- Total pixel count `image.shape[0] * image.shape[1]`. -/
def Image.totalPixels (img : Image) : ℕ := img.height * img.width

/-- A rectangular numpy view `image[r0:r0+h, c0:c0+w]`. -/
def Image.slice (img : Image) (r0 h c0 w : ℕ) : Image :=
  ⟨h, w, fun i j => img.pixel (r0 + i) (c0 + j)⟩

/-- Number of pixels of the frame matched by the per-pixel classifier: the
`cv2.countNonZero` of the mask produced by `cv2.cvtColor` + `cv2.inRange`,
both of which act pixelwise. -/
def countGreen (isGreen : Pixel → Bool) (img : Image) : ℕ :=
  ((List.range img.height).map (fun i =>
    ((List.range img.width).filter (fun j => isGreen (img.pixel i j))).length)).sum


/-- A message handed to `client.publish(topic, payload, retain)`. -/
structure Msg where
  topic : String
  payload : String
  retain : Bool
deriving DecidableEq

namespace Rootfs

/-- Home-Assistant device block of a discovery descriptor
(`rootfs/opt/brokkoli_analysis/processors/green_pixels_processor.py`). -/
structure DeviceInfo where
  identifiers : List String
  name : String
  model : String
  manufacturer : String
deriving DecidableEq

/-- A sensor discovery descriptor as built by `get_sensor_configs` and stored
by `MQTTClient.register_sensor`. `state_topic := none` models a descriptor
dict with no `state_topic` key (`config.get('state_topic')` returns `None`);
the field names mirror the source dict keys. -/
structure SensorConfig where
  name : String
  unique_id : String
  state_topic : Option String
  unit_of_measurement : String
  icon : String
  device : Option DeviceInfo
deriving DecidableEq

/-- Rendering of `json.dumps(config)` for a descriptor, keys in the insertion
order used by `get_sensor_configs`. -/
def deviceJson (d : DeviceInfo) : String :=
  "\x7b" ++ jsonQuote "identifiers" ++ ": [" ++
    String.intercalate ", " (d.identifiers.map jsonQuote) ++ "], " ++
  jsonQuote "name" ++ ": " ++ jsonQuote d.name ++ ", " ++
  jsonQuote "model" ++ ": " ++ jsonQuote d.model ++ ", " ++
  jsonQuote "manufacturer" ++ ": " ++ jsonQuote d.manufacturer ++ "\x7d"

/-- JSON payload of a discovery message (`json.dumps(config)` in
`register_sensor`). -/
def configJson (c : SensorConfig) : String :=
  "\x7b" ++ jsonQuote "name" ++ ": " ++ jsonQuote c.name ++ ", " ++
  jsonQuote "unique_id" ++ ": " ++ jsonQuote c.unique_id ++
  (match c.state_topic with
   | some t => ", " ++ jsonQuote "state_topic" ++ ": " ++ jsonQuote t
   | none => "") ++
  ", " ++ jsonQuote "unit_of_measurement" ++ ": " ++ jsonQuote c.unit_of_measurement ++
  ", " ++ jsonQuote "icon" ++ ": " ++ jsonQuote c.icon ++
  (match c.device with
   | some d => ", " ++ jsonQuote "device" ++ ": " ++ deviceJson d
   | none => "") ++ "\x7d"

/-- Client state of `rootfs/opt/brokkoli_analysis/mqtt_client.py`:
the `connected` flag, the configured discovery topic root
(`self.discovery_prefix`), the registration table `registered_sensors`,
and the log of messages handed to `client.publish` so far. -/
structure MQTTState where
  connected : Bool
  discoveryPrefix : String
  registered_sensors : List (String × SensorConfig)
  published : List Msg

namespace MQTTClient

/-- Discovery topic `f"{self.discovery_prefix}/sensor/{sensor_id}/config"`. -/
def discoveryTopic (s : MQTTState) (sensor_id : String) : String :=
  s.discoveryPrefix ++ "/sensor/" ++ sensor_id ++ "/config"

/-- `MQTTClient.register_sensor`: refuse when not connected; otherwise publish
the descriptor retained at the discovery topic and record it in
`registered_sensors`. -/
def register_sensor (s : MQTTState) (sensor_id : String) (config : SensorConfig) :
    Bool × MQTTState :=
  if ¬ s.connected then (false, s)
  else
    (true,
     { s with
       registered_sensors := dictSet s.registered_sensors sensor_id config,
       published := s.published ++ [⟨discoveryTopic s sensor_id, configJson config, true⟩] })

/-- `MQTTClient.publish_sensor_state`: fail when not connected, when the id has
no registration record, or when the recorded descriptor has no (truthy)
`state_topic`; otherwise publish `str(state)` non-retained to the recorded
state topic. -/
def publish_sensor_state (s : MQTTState) (sensor_id : String) (state : PyValue) :
    Bool × MQTTState :=
  if ¬ s.connected then (false, s)
  else
    match dictGet s.registered_sensors sensor_id with
    | none => (false, s)
    | some config =>
      match config.state_topic with
      | none => (false, s)
      | some t =>
        if t = "" then (false, s)
        else (true, { s with published := s.published ++ [⟨t, pyStr state, false⟩] })

/-- The state message `publish_sensor_state s sensor_id state` would publish,
if any (`none` exactly when the call fails). -/
def stateMsgFor (s : MQTTState) (sensor_id : String) (state : PyValue) : Option Msg :=
  if ¬ s.connected then none
  else
    match dictGet s.registered_sensors sensor_id with
    | none => none
    | some config =>
      match config.state_topic with
      | none => none
      | some t => if t = "" then none else some ⟨t, pyStr state, false⟩

/-- `MQTTClient.publish_sensor_data`: fold `publish_sensor_state` over every
entry of the map, keeping a running `success` conjunction; every entry is
attempted regardless of earlier failures. -/
def publish_sensor_data (s : MQTTState) (sensor_data : List (String × PyValue)) :
    Bool × MQTTState :=
  sensor_data.foldl
    (fun acc kv =>
      let r := publish_sensor_state acc.2 kv.1 kv.2
      (acc.1 && r.1, r.2))
    (true, s)

/-- `MQTTClient.unregister_sensor`: refuse when not connected; otherwise
publish an empty retained payload at the discovery topic and drop the
registration record if present. -/
def unregister_sensor (s : MQTTState) (sensor_id : String) : Bool × MQTTState :=
  if ¬ s.connected then (false, s)
  else
    (true,
     { s with
       registered_sensors := dictRemove s.registered_sensors sensor_id,
       published := s.published ++ [⟨discoveryTopic s sensor_id, "", true⟩] })

/-- The client operations that touch the client state: the four public calls
plus the `_on_connect` / `_on_disconnect` network callbacks (which only flip
the `connected` flag). -/
inductive Op where
  | register (sensor_id : String) (config : SensorConfig)
  | publishState (sensor_id : String) (state : PyValue)
  | publishData (sensor_data : List (String × PyValue))
  | unregister (sensor_id : String)
  | onConnect
  | onDisconnect

/-- State transition of one operation (discarding the returned status). -/
def step (s : MQTTState) : Op → MQTTState
  | .register i c => (register_sensor s i c).2
  | .publishState i v => (publish_sensor_state s i v).2
  | .publishData m => (publish_sensor_data s m).2
  | .unregister i => (unregister_sensor s i).2
  | .onConnect => { s with connected := true }
  | .onDisconnect => { s with connected := false }

/-- Run a sequence of operations. -/
def run (s : MQTTState) : List Op → MQTTState
  | [] => s
  | op :: rest => run (step s op) rest

end MQTTClient

end Rootfs

namespace Rootfs

/-- Processor configuration read in `BaseProcessor.__init__`
(`config.get('enabled', True)`, `config.get('quadrants', False)`). -/
structure ProcConfig where
  enabled : Bool
  quadrants : Bool
deriving DecidableEq

/-- `BaseProcessor._process_quadrants`: split the frame at `h // 2`, `w // 2`
into the four named regions. -/
def BaseProcessor.process_quadrants (img : Image) : List (String × Image) :=
  let mid_h := img.height / 2
  let mid_w := img.width / 2
  [("top_left", img.slice 0 mid_h 0 mid_w),
   ("top_right", img.slice 0 mid_h mid_w (img.width - mid_w)),
   ("bottom_left", img.slice mid_h (img.height - mid_h) 0 mid_w),
   ("bottom_right", img.slice mid_h (img.height - mid_h) mid_w (img.width - mid_w))]

/-- A value stored in a result map: a pixel count or a percentage. -/
inductive RVal where
  | nat (n : ℕ)
  | rat (q : ℚ)
deriving DecidableEq

/-- Python `round(x, 2)` on the percentage (idealized to exact rationals;
the tie-break of the rounding mode is irrelevant to every claim below,
which only uses that the result is within 1/200 of the argument). -/
def round2 (q : ℚ) : ℚ := (round (q * 100) : ℤ) / 100

end Rootfs

namespace Rootfs

/-- Per-quadrant entries added by
`GreenPixelsProcessor._process_quadrants_green`: for each of the four
quadrants, a `{quad}_green_pixels` count and a rounded
`{quad}_green_percentage`. Only reached when every quadrant is non-empty
(otherwise the division raises and `process` catches, see `process`). -/
def GreenPixelsProcessor.process_quadrants_green
    (isGreen : Pixel → Bool) (img : Image) : List (String × RVal) :=
  ((BaseProcessor.process_quadrants img).map (fun qi =>
    let green := countGreen isGreen qi.2
    let total := qi.2.totalPixels
    [(qi.1 ++ "_green_pixels", RVal.nat green),
     (qi.1 ++ "_green_percentage",
      RVal.rat (round2 ((green : ℚ) / (total : ℚ) * 100)))])).flatten

/-- `GreenPixelsProcessor.process`: empty map when disabled; otherwise count
the classified pixels and report count, total and rounded percentage, plus
the per-quadrant entries when quadrant mode is on. The whole body runs under
`try/except` returning `{}`: a zero-pixel frame (`total == 0`) raises
`ZeroDivisionError`, and in quadrant mode a frame with an empty quadrant
(`h // 2 == 0` or `w // 2 == 0`) raises inside the quadrant loop — both are
caught and surface as the empty result map. -/
def GreenPixelsProcessor.process (isGreen : Pixel → Bool) (cfg : ProcConfig)
    (img : Image) : List (String × RVal) :=
  if ¬ cfg.enabled then []
  else if img.totalPixels = 0 then []
  else
    let green := countGreen isGreen img
    let results : List (String × RVal) :=
      [("green_pixels", RVal.nat green),
       ("total_pixels", RVal.nat img.totalPixels),
       ("green_percentage",
        RVal.rat (round2 ((green : ℚ) / (img.totalPixels : ℚ) * 100)))]
    if cfg.quadrants then
      if img.height / 2 = 0 ∨ img.width / 2 = 0 then []
      else results ++ GreenPixelsProcessor.process_quadrants_green isGreen img
    else results

/-- Device name `f"brokkoli_analysis_{source_name}"` built in
`GreenPixelsProcessor.get_sensor_configs` from the processor's own name. -/
def GreenPixelsProcessor.deviceName (procName : String) : String :=
  "brokkoli_analysis_" ++ normalizeName procName

/-- The `device` block shared by all descriptors of one processor. -/
def GreenPixelsProcessor.mainDevice (procName : String) : DeviceInfo :=
  { identifiers := [GreenPixelsProcessor.deviceName procName],
    name := "Brokkoli Analysis " ++ procName,
    model := "Green Pixels Counter",
    manufacturer := "Brokkoli Analysis" }

/-- The quadrant name list of `get_sensor_configs`. -/
def quadrantNames : List String := ["top_left", "top_right", "bottom_left", "bottom_right"]

/-- One descriptor entry of `get_sensor_configs` (`key` is
`green_pixels`-style, possibly quadrant-prefixed; `display` is the
human-readable middle part of the name). -/
def GreenPixelsProcessor.sensorEntry (procName key display unit icon : String) :
    String × SensorConfig :=
  let d := GreenPixelsProcessor.deviceName procName
  (d ++ "_" ++ key,
   { name := procName ++ " " ++ display,
     unique_id := d ++ "_" ++ key,
     state_topic := some ("homeassistant/sensor/" ++ d ++ "_" ++ key ++ "/state"),
     unit_of_measurement := unit,
     icon := icon,
     device := some (GreenPixelsProcessor.mainDevice procName) })

/-- `GreenPixelsProcessor.get_sensor_configs`: the descriptor map — a
green-pixels and a green-percentage descriptor, plus, in quadrant mode, the
same pair per quadrant (quadrant display names via
`quad_name.replace("_", " ").title()`). -/
def GreenPixelsProcessor.get_sensor_configs (procName : String)
    (quadrants : Bool) : List (String × SensorConfig) :=
  [GreenPixelsProcessor.sensorEntry procName "green_pixels" "Green Pixels" "pixels" "mdi:leaf",
   GreenPixelsProcessor.sensorEntry procName "green_percentage" "Green Percentage" "%" "mdi:percent"] ++
  (if quadrants then
    (quadrantNames.map (fun q =>
      [GreenPixelsProcessor.sensorEntry procName (q ++ "_green_pixels")
        (pyTitle (pyReplace q "_" " ") ++ " Green Pixels") "pixels" "mdi:leaf",
       GreenPixelsProcessor.sensorEntry procName (q ++ "_green_percentage")
        (pyTitle (pyReplace q "_" " ") ++ " Green Percentage") "%" "mdi:percent"])).flatten
   else [])

namespace Coordinator

/-- The sensor-id rewrite of `ProcessingCoordinator._register_sensors`:
`sensor_id.replace('brokkoli_analysis_', f'brokkoli_analysis_{source_name}_')`. -/
def registeredSensorId (sourceName sensor_id : String) : String :=
  pyReplace sensor_id "brokkoli_analysis_"
    ("brokkoli_analysis_" ++ normalizeName sourceName ++ "_")

/-- The ids `ProcessingCoordinator._register_sensors` registers for one
enabled processor under one source. -/
def registeredIds (sourceName procName : String) (quadrants : Bool) : List String :=
  (GreenPixelsProcessor.get_sensor_configs procName quadrants).map
    (fun kv => registeredSensorId sourceName kv.1)

/-- The sensor ids `ProcessingCoordinator._publish_results` publishes a
result map under: `f'brokkoli_analysis_{source_name}_{key}'` per result key. -/
def publishedSensorIds (sourceName : String) (results : List (String × RVal)) :
    List String :=
  results.map (fun kv => "brokkoli_analysis_" ++ normalizeName sourceName ++ "_" ++ kv.1)

end Coordinator

end Rootfs

namespace Addon

/-- A sensor discovery descriptor of the `brokkoli-analysis` tree
(`rootfs/opt/brokkoli_analysis/processors/green_pixels_processor.py`,
`get_sensor_configs`); field names mirror the dict keys
(`device_class` is rendered in `discoveryPayload`). -/
structure SensorConfig where
  name : String
  state_topic : String
  unit_of_measurement : String
  deviceClass : String
  unique_id : String
  value_template : String
deriving DecidableEq

/-- Processor wiring as the coordinator sees it: its configured name, the
`enabled` flag and the `quadrants` flag (fixed at construction). -/
structure Processor where
  name : String
  enabled : Bool
  quadrants : Bool
deriving DecidableEq

/-- The quadrant names used by `split_into_quadrants` / `get_sensor_configs`. -/
def quadrantNames : List String := ["top_left", "top_right", "bottom_left", "bottom_right"]

/-- `GreenPixelsProcessor._count_green_pixels`: classified count, total count,
and percentage — explicitly `0` when `total_pixels == 0`
(`... if total_pixels > 0 else 0`), unrounded otherwise. -/
def GreenPixelsProcessor.count_green_pixels (isGreen : Pixel → Bool)
    (img : Image) : ℕ × ℕ × ℚ :=
  let green := countGreen isGreen img
  let total := img.totalPixels
  (green, total,
   if 0 < total then (green : ℚ) / (total : ℚ) * 100 else 0)

/-- `GreenPixelsProcessor.get_sensor_configs` of the `brokkoli-analysis`
tree: one descriptor per quadrant in quadrant mode, else a single descriptor
keyed by the processor name. -/
def GreenPixelsProcessor.get_sensor_configs (name : String) (quadrants : Bool) :
    List (String × SensorConfig) :=
  if quadrants then
    quadrantNames.map (fun q =>
      (name ++ "_" ++ q,
       { name := "Green Pixels " ++ pyTitle (pyReplace q "_" " "),
         state_topic := "brokkoli/" ++ name ++ "/" ++ q,
         unit_of_measurement := "%",
         deviceClass := "humidity",
         unique_id := "brokkoli_" ++ name ++ "_" ++ q,
         value_template := "\x7b\x7b value | round(1) \x7d\x7d" }))
  else
    [(name,
      { name := "Green Pixels " ++ pyTitle (pyReplace name "_" " "),
        state_topic := "brokkoli/" ++ name,
        unit_of_measurement := "%",
        deviceClass := "humidity",
        unique_id := "brokkoli_" ++ name,
        value_template := "\x7b\x7b value | round(1) \x7d\x7d" })]

/-- The fixed `device_info` block of `brokkoli-analysis/mqtt_client.py`,
rendered as JSON. -/
def deviceInfoJson : String :=
  "\x7b" ++ jsonQuote "identifiers" ++ ": [" ++ jsonQuote "brokkoli_analysis" ++ "], " ++
  jsonQuote "name" ++ ": " ++ jsonQuote "Brokkoli Analysis" ++ ", " ++
  jsonQuote "manufacturer" ++ ": " ++ jsonQuote "Custom" ++ ", " ++
  jsonQuote "model" ++ ": " ++ jsonQuote "Image Analyzer" ++ ", " ++
  jsonQuote "sw_version" ++ ": " ++ jsonQuote "1.0.0" ++ "\x7d"

/-- The fixed `origin_info` block, rendered as JSON. -/
def originInfoJson : String :=
  "\x7b" ++ jsonQuote "name" ++ ": " ++ jsonQuote "Brokkoli Analysis Addon" ++ ", " ++
  jsonQuote "sw" ++ ": " ++ jsonQuote "1.0.0" ++ ", " ++
  jsonQuote "url" ++ ": " ++
    jsonQuote "https://github.com/your-username/brokkoli-analysis-addon" ++ "\x7d"

/-- `json.dumps({**config, "device": ..., "origin": ...})` built by
`MQTTClient.publish_discovery` for one descriptor. -/
def discoveryPayload (c : SensorConfig) : String :=
  "\x7b" ++ jsonQuote "name" ++ ": " ++ jsonQuote c.name ++ ", " ++
  jsonQuote "state_topic" ++ ": " ++ jsonQuote c.state_topic ++ ", " ++
  jsonQuote "unit_of_measurement" ++ ": " ++ jsonQuote c.unit_of_measurement ++ ", " ++
  jsonQuote "device_class" ++ ": " ++ jsonQuote c.deviceClass ++ ", " ++
  jsonQuote "unique_id" ++ ": " ++ jsonQuote c.unique_id ++ ", " ++
  jsonQuote "value_template" ++ ": " ++ jsonQuote c.value_template ++ ", " ++
  jsonQuote "device" ++ ": " ++ deviceInfoJson ++ ", " ++
  jsonQuote "origin" ++ ": " ++ originInfoJson ++ "\x7d"

/-- The retained discovery messages published by
`MQTTClient.publish_discovery` (topic
`f"{self.discovery_prefix}/sensor/brokkoli/{sensor_name}/config"`). -/
def discoveryMessages (discoveryPrefix : String)
    (sensor_configs : List (String × SensorConfig)) : List Msg :=
  sensor_configs.map (fun kv =>
    ⟨discoveryPrefix ++ "/sensor/brokkoli/" ++ kv.1 ++ "/config",
     discoveryPayload kv.2, true⟩)

/-- The merged descriptor map collected by
`BrokkoliCoordinator._publish_discovery` from every enabled processor
(`all_sensor_configs.update(sensor_configs)` per processor). -/
def collectSensorConfigs (processors : List Processor) :
    List (String × SensorConfig) :=
  processors.foldl
    (fun acc p =>
      if p.enabled then
        dictUpdate acc (GreenPixelsProcessor.get_sensor_configs p.name p.quadrants)
      else acc)
    []

/-- The discovery messages one call of
`BrokkoliCoordinator._publish_discovery` hands to the broker: nothing when no
enabled processor contributes a descriptor or when the client is not
connected, else one retained config message per collected descriptor. -/
def publishDiscoveryEffect (connected : Bool) (discoveryPrefix : String)
    (processors : List Processor) : List Msg :=
  let cfgs := collectSensorConfigs processors
  if cfgs = [] then []
  else if ¬ connected then []
  else discoveryMessages discoveryPrefix cfgs

/-- The discovery set published by `BrokkoliCoordinator.start` (which runs
right after a successful `connect`, so with `connected = true`). -/
def coordinatorStartDiscovery (discoveryPrefix : String)
    (processors : List Processor) : List Msg :=
  publishDiscoveryEffect true discoveryPrefix processors

/-- `MQTTClient.publish_state` of `brokkoli-analysis/mqtt_client.py`:
drop the message when not connected, else serialize numeric values with
`str(...)` and everything else with `json.dumps(...)`, and publish with the
given retain flag (default `False` at every state-publish call site). -/
def MQTTClient.publish_state (connected : Bool) (published : List Msg)
    (topic : String) (value : PyValue) (retain : Bool) : List Msg :=
  if ¬ connected then published
  else published ++
    [⟨topic, if isNumeric value then pyStr value else pyJson value, retain⟩]

/-- Observable events of one iteration of the supervision loop in
`BrokkoliAnalysisApp.run`. -/
inductive AppEvent where
  | connectAttempt (ok : Bool)
  | publish (m : Msg)
deriving DecidableEq

/-- One iteration of the `while self.running` loop of
`BrokkoliAnalysisApp.run`, restricted to its connection supervision: when the
client reports connected nothing happens; when it reports disconnected the
loop calls `connect()`, and on success immediately calls
`coordinator._publish_discovery()` (on failure it sleeps and retries next
iteration). `connectOutcome` is the broker's answer to the attempt. -/
def appSuperviseTick (connected : Bool) (discoveryPrefix : String)
    (processors : List Processor) (connectOutcome : Bool) : List AppEvent :=
  if connected then []
  else if ¬ connectOutcome then [AppEvent.connectAttempt false]
  else
    AppEvent.connectAttempt true ::
      (publishDiscoveryEffect true discoveryPrefix processors).map AppEvent.publish

/-- State of `FolderSource`
(`brokkoli-analysis/rootfs/opt/brokkoli_analysis/sources/folder_source.py`):
whether `self.latest_image_path` is set and the file exists, the tracked
modification time, the last successful-delivery time, and the configured
minimum `update_interval`. Times are seconds (`time.time()` / `st_mtime`). -/
structure FolderSourceState where
  hasCandidate : Bool
  latest_image_time : Option ℤ
  last_processed_time : Option ℤ
  update_interval : ℤ

/-- Python truthiness of an optional timestamp (`None` and `0` are falsy). -/
def timeTruthy : Option ℤ → Bool
  | none => false
  | some t => t ≠ 0

/-- `FolderSource.get_latest_frame`: no frame when there is no candidate
file, when the minimum interval since the last delivery has not elapsed, or
when the candidate has not been modified since the last delivery; otherwise
decode (`imread` models the `cv2.imread` outcome; `none` covers both a
failed decode and the caught exception) and, on success, record the delivery
time and return the frame. -/
def FolderSource.get_latest_frame (s : FolderSourceState) (current_time : ℤ)
    (imread : Option Image) : Option Image × FolderSourceState :=
  if ¬ s.hasCandidate then (none, s)
  else if timeTruthy s.last_processed_time ∧
          current_time - (s.last_processed_time.getD 0) < s.update_interval then
    (none, s)
  else if timeTruthy s.last_processed_time ∧ timeTruthy s.latest_image_time ∧
          (s.latest_image_time.getD 0) ≤ (s.last_processed_time.getD 0) then
    (none, s)
  else
    match imread with
    | some image => (some image, { s with last_processed_time := some current_time })
    | none => (none, s)

end Addon


namespace Addon

/-- `BaseProcessor.split_into_quadrants` of the `brokkoli-analysis` tree:
character-identical slicing to the rootfs `_process_quadrants`. -/
def BaseProcessor.split_into_quadrants (img : Image) : List (String × Image) :=
  let mid_h := img.height / 2
  let mid_w := img.width / 2
  [("top_left", img.slice 0 mid_h 0 mid_w),
   ("top_right", img.slice 0 mid_h mid_w (img.width - mid_w)),
   ("bottom_left", img.slice mid_h (img.height - mid_h) 0 mid_w),
   ("bottom_right", img.slice mid_h (img.height - mid_h) mid_w (img.width - mid_w))]

end Addon

/-- A concrete stand-in for the per-pixel HSV threshold classifier, used to
instantiate witnesses (the claims hold for every classifier): a pixel counts
as green when its green channel is at least 100. -/
def sampleClassifier : Pixel → Bool := fun p => decide (100 ≤ p.2.1)

/-- A 1 × 1 all-green frame. -/
def img11 : Image := ⟨1, 1, fun _ _ => ((0 : ℕ), (200 : ℕ), (0 : ℕ))⟩

/-- A 1 × 2 frame whose left pixel is green and right pixel black. -/
def img12 : Image :=
  ⟨1, 2, fun _ j => if j = 0 then ((0 : ℕ), (200 : ℕ), (0 : ℕ)) else ((0 : ℕ), (0 : ℕ), (0 : ℕ))⟩

/-- A degenerate frame with zero rows (`total_pixels == 0`). -/
def img05 : Image := ⟨0, 5, fun _ _ => ((0 : ℕ), (0 : ℕ), (0 : ℕ))⟩

/-- A 101 × 101 frame (quadrant-size scenario of the spec). -/
def img101 : Image := ⟨101, 101, fun _ _ => ((0 : ℕ), (200 : ℕ), (0 : ℕ))⟩

/-- A descriptor with no `state_topic` key. -/
def cfgNoTopic : Rootfs.SensorConfig :=
  { name := "Plant Green Pixels", unique_id := "plant_gp", state_topic := none,
    unit_of_measurement := "pixels", icon := "mdi:leaf", device := none }

/-- A descriptor declaring the state topic `brokkoli/a/state`. -/
def cfgTopic : Rootfs.SensorConfig :=
  { name := "A", unique_id := "a", state_topic := some "brokkoli/a/state",
    unit_of_measurement := "%", icon := "mdi:percent", device := none }

/-- A connected client with an empty registration table. -/
def s0 : Rootfs.MQTTState :=
  { connected := true, discoveryPrefix := "homeassistant",
    registered_sensors := [], published := [] }

/-- A connected client with sensor `a` registered under `cfgTopic`. -/
def sReg : Rootfs.MQTTState :=
  { connected := true, discoveryPrefix := "homeassistant",
    registered_sensors := [("a", cfgTopic)], published := [] }

/-- A concrete operation sequence containing no re-registration of `a`. -/
def opsW : List Rootfs.MQTTClient.Op :=
  [Rootfs.MQTTClient.Op.publishState "a" (PyValue.int 1),
   Rootfs.MQTTClient.Op.onDisconnect,
   Rootfs.MQTTClient.Op.onConnect]

/-- A folder source with a candidate file (mtime 100) that has never been
delivered, and a 30-second minimum interval. -/
def fsW : Addon.FolderSourceState :=
  { hasCandidate := true, latest_image_time := some 100,
    last_processed_time := none, update_interval := 30 }

/-- The result map of the rootfs green-pixels processor on a concrete 1 × 1
frame for a processor named `Plant` (quadrants off). -/
def gardenResults : List (String × Rootfs.RVal) :=
  Rootfs.GreenPixelsProcessor.process sampleClassifier ⟨true, false⟩ img11

/-- The sensor ids `_publish_results` publishes `gardenResults` under for a
source named `Garden`. -/
def gardenPublishedIds : List String :=
  Rootfs.Coordinator.publishedSensorIds "Garden" gardenResults

/-- The key set of the descriptor map of a processor named `Plant`
(quadrants off). -/
def plantDescriptorKeys : List String :=
  (Rootfs.GreenPixelsProcessor.get_sensor_configs "Plant" false).map Prod.fst

/-- The sensor ids `_register_sensors` actually registers for source
`Garden` × processor `Plant`. -/
def gardenPlantRegisteredIds : List String :=
  Rootfs.Coordinator.registeredIds "Garden" "Plant" false


theorem countGreen_le_total (isGreen : Pixel → Bool) (img : Image) :
    countGreen isGreen img ≤ img.totalPixels := by
  unfold countGreen Image.totalPixels
  have h := List.sum_le_card_nsmul
    ((List.range img.height).map (fun i =>
      ((List.range img.width).filter (fun j => isGreen (img.pixel i j))).length))
    img.width
    (by
      intro x hx
      rcases List.mem_map.mp hx with ⟨i, _, rfl⟩
      simpa using (List.length_filter_le _ (List.range img.width)))
  simpa [List.length_map, List.length_range, smul_eq_mul] using h

namespace Rootfs

theorem round2_close (q : ℚ) : |round2 q - q| ≤ 1 / 200 := by
  have h := abs_sub_round (q * 100)
  have e : round2 q - q = (((round (q * 100) : ℤ) : ℚ) - q * 100) / 100 := by
    unfold round2; ring
  rw [e, abs_div, abs_of_pos (show (0 : ℚ) < 100 by norm_num)]
  rw [abs_sub_comm] at h
  linarith

theorem round2_bounds (q : ℚ) (h0 : 0 ≤ q) (h1 : q ≤ 100) :
    0 ≤ round2 q ∧ round2 q ≤ 100 := by
  have m0 : round (0 : ℚ) ≤ round (q * 100) := by
    rw [round_eq, round_eq]; exact Int.floor_mono (by linarith)
  have m1 : round (q * 100) ≤ round ((10000 : ℤ) : ℚ) := by
    rw [round_eq, round_eq]; exact Int.floor_mono (by push_cast; linarith)
  rw [round_zero] at m0
  rw [round_intCast] at m1
  have c0 : (0 : ℚ) ≤ ((round (q * 100) : ℤ) : ℚ) := by exact_mod_cast m0
  have c1 : ((round (q * 100) : ℤ) : ℚ) ≤ 10000 := by exact_mod_cast m1
  constructor
  · unfold round2
    exact div_nonneg c0 (by norm_num)
  · unfold round2
    rw [div_le_iff₀ (show (0 : ℚ) < 100 by norm_num)]
    linarith

end Rootfs

theorem dictGet_dictSet_self {α : Type} (m : List (String × α)) (k : String) (v : α) :
    dictGet (dictSet m k v) k = some v := by
  induction m with
  | nil => simp [dictSet, dictGet]
  | cons kv rest ih =>
    by_cases h : kv.1 = k
    · simp [dictSet, dictGet, h]
    · simp [dictSet, dictGet, h, ih]

theorem dictGet_dictSet_ne {α : Type} (m : List (String × α)) (k i : String) (v : α)
    (h : k ≠ i) : dictGet (dictSet m k v) i = dictGet m i := by
  induction m with
  | nil => simp [dictSet, dictGet, h]
  | cons kv rest ih =>
    by_cases hk : kv.1 = k
    · simp [dictSet, dictGet, hk, h]
    · simp [dictSet, dictGet, hk, ih]

theorem dictGet_dictRemove_self {α : Type} (m : List (String × α)) (k : String) :
    dictGet (dictRemove m k) k = none := by
  induction m with
  | nil => simp [dictRemove, dictGet]
  | cons kv rest ih =>
    by_cases h : kv.1 = k
    · simpa [dictRemove, h] using ih
    · simpa [dictRemove, dictGet, h] using ih

theorem dictGet_eq_none_iff {α : Type} (m : List (String × α)) (i : String) :
    dictGet m i = none ↔ ∀ kv ∈ m, kv.1 ≠ i := by
  induction m with
  | nil => simp [dictGet]
  | cons kv rest ih =>
    by_cases hi : kv.1 = i
    · simp [dictGet, hi]
    · simp [dictGet, hi, ih]

theorem dictGet_dictRemove_none {α : Type} (m : List (String × α)) (k i : String)
    (h : dictGet m i = none) : dictGet (dictRemove m k) i = none := by
  rw [dictGet_eq_none_iff] at h ⊢
  intro kv hkv
  exact h kv (List.mem_of_mem_filter hkv)

namespace Rootfs

namespace MQTTClient

theorem publish_sensor_state_eq (s : MQTTState) (i : String) (v : PyValue) :
    publish_sensor_state s i v =
      ((stateMsgFor s i v).isSome,
       { s with published := s.published ++ (stateMsgFor s i v).toList }) := by
  obtain ⟨c, dp, reg, pub⟩ := s
  unfold publish_sensor_state stateMsgFor
  by_cases hc : c
  · cases hg : dictGet reg i with
    | none => simp [hc, hg]
    | some cfg =>
      cases ht : cfg.state_topic with
      | none => simp [hc, hg, ht]
      | some t => by_cases h0 : t = "" <;> simp [hc, hg, ht, h0]
  · simp [hc]

theorem stateMsgFor_published (s : MQTTState) (p : List Msg) (i : String) (v : PyValue) :
    stateMsgFor { s with published := p } i v = stateMsgFor s i v := rfl

theorem publish_sensor_state_frame (s : MQTTState) (i : String) (v : PyValue) :
    (publish_sensor_state s i v).2.connected = s.connected ∧
    (publish_sensor_state s i v).2.registered_sensors = s.registered_sensors ∧
    (publish_sensor_state s i v).2.discoveryPrefix = s.discoveryPrefix := by
  rw [publish_sensor_state_eq]
  exact ⟨rfl, rfl, rfl⟩

theorem publish_sensor_data_loop (sensor_data : List (String × PyValue))
    (b : Bool) (s : MQTTState) :
    sensor_data.foldl
      (fun acc kv =>
        let r := publish_sensor_state acc.2 kv.1 kv.2
        (acc.1 && r.1, r.2))
      (b, s) =
    (b && sensor_data.all (fun kv => (stateMsgFor s kv.1 kv.2).isSome),
     { s with published := s.published ++
        sensor_data.filterMap (fun kv => stateMsgFor s kv.1 kv.2) }) := by
  induction sensor_data generalizing b s with
  | nil => simp
  | cons kv rest ih =>
    simp only [List.foldl_cons, List.all_cons, List.filterMap_cons]
    rw [publish_sensor_state_eq]
    rw [ih]
    cases hm : stateMsgFor s kv.1 kv.2 with
    | none =>
      simp only [hm, Option.isSome_none, Option.toList_none, List.append_nil]
      have hrw : ∀ j w, stateMsgFor { s with published := s.published } j w =
          stateMsgFor s j w := fun j w => rfl
      simp only [hrw]
      simp [Bool.and_assoc]
    | some msg =>
      simp only [hm, Option.isSome_some, Option.toList_some]
      have hrw : ∀ j w, stateMsgFor { s with published := s.published ++ [msg] } j w =
          stateMsgFor s j w := fun j w => rfl
      simp only [hrw]
      simp [List.append_assoc, Bool.and_assoc]

theorem publish_sensor_data_eq (s : MQTTState) (sensor_data : List (String × PyValue)) :
    publish_sensor_data s sensor_data =
      (sensor_data.all (fun kv => (publish_sensor_state s kv.1 kv.2).1),
       { s with published := s.published ++
          sensor_data.filterMap (fun kv => stateMsgFor s kv.1 kv.2) }) := by
  unfold publish_sensor_data
  rw [publish_sensor_data_loop]
  have hfun : (fun kv : String × PyValue => (stateMsgFor s kv.1 kv.2).isSome) =
      (fun kv => (publish_sensor_state s kv.1 kv.2).1) :=
    funext fun kv => by rw [publish_sensor_state_eq]
  rw [Bool.true_and, hfun]

end MQTTClient

end Rootfs

namespace Rootfs

namespace MQTTClient

theorem stateMsgFor_none_of_unregistered (s : MQTTState) (i : String) (v : PyValue)
    (h : dictGet s.registered_sensors i = none) : stateMsgFor s i v = none := by
  unfold stateMsgFor
  by_cases hc : s.connected <;> simp [hc, h]

theorem publish_sensor_state_unregistered (s : MQTTState) (i : String) (v : PyValue)
    (h : dictGet s.registered_sensors i = none) :
    publish_sensor_state s i v = (false, s) := by
  rw [publish_sensor_state_eq, stateMsgFor_none_of_unregistered s i v h]
  simp

theorem step_registered_none (s : MQTTState) (i : String) (op : Op)
    (h : dictGet s.registered_sensors i = none)
    (hop : ∀ cfg, op ≠ Op.register i cfg) :
    dictGet (step s op).registered_sensors i = none := by
  cases op with
  | register j c =>
    have hj : j ≠ i := by
      intro he
      exact hop c (by rw [he])
    simp only [step]
    unfold register_sensor
    by_cases hc : s.connected
    · simpa [hc, dictGet_dictSet_ne _ _ _ _ hj] using h
    · simpa [hc] using h
  | publishState j v =>
    simp only [step]
    rw [(publish_sensor_state_frame s j v).2.1]
    exact h
  | publishData m =>
    simp only [step]
    rw [publish_sensor_data_eq]
    exact h
  | unregister j =>
    simp only [step]
    unfold unregister_sensor
    by_cases hc : s.connected
    · simpa [hc] using dictGet_dictRemove_none _ j _ h
    · simpa [hc] using h
  | onConnect => exact h
  | onDisconnect => exact h

theorem run_registered_none (ops : List Op) (s : MQTTState) (i : String)
    (h : dictGet s.registered_sensors i = none)
    (hops : ∀ cfg, Op.register i cfg ∉ ops) :
    dictGet (run s ops).registered_sensors i = none := by
  induction ops generalizing s with
  | nil => exact h
  | cons op rest ih =>
    have hop : ∀ cfg, op ≠ Op.register i cfg := by
      intro cfg he
      exact hops cfg (by rw [he]; exact List.mem_cons_self _ _)
    have hrest : ∀ cfg, Op.register i cfg ∉ rest := by
      intro cfg hmem
      exact hops cfg (List.mem_cons_of_mem _ hmem)
    exact ih (step s op) (step_registered_none s i op h hop) hrest

end MQTTClient

end Rootfs

/-- Claim C5: for every image, the quadrant split produces the four regions
top-left `(h/2)×(w/2)`, top-right `(h/2)×(w−w/2)`, bottom-left
`(h−h/2)×(w/2)`, bottom-right `(h−h/2)×(w−w/2)`, whose pixel counts sum to
`h×w`; the `brokkoli-analysis` tree's `split_into_quadrants` is the identical
split; and a 101×101 frame yields quadrant totals 2500, 2550, 2550, 2601. -/
theorem c5_quadrant_split_sizes :
    (∀ img : Image,
      ((Rootfs.BaseProcessor.process_quadrants img).map
          (fun q => (q.2.height, q.2.width))) =
        [(img.height / 2, img.width / 2),
         (img.height / 2, img.width - img.width / 2),
         (img.height - img.height / 2, img.width / 2),
         (img.height - img.height / 2, img.width - img.width / 2)] ∧
      ((Rootfs.BaseProcessor.process_quadrants img).map
          (fun q => q.2.totalPixels)).sum = img.totalPixels ∧
      Addon.BaseProcessor.split_into_quadrants img =
        Rootfs.BaseProcessor.process_quadrants img) ∧
    ((Rootfs.BaseProcessor.process_quadrants img101).map
        (fun q => q.2.totalPixels)) = [2500, 2550, 2550, 2601] := by
  constructor
  · intro img
    refine ⟨rfl, ?_, rfl⟩
    have hh : img.height / 2 + (img.height - img.height / 2) = img.height := by omega
    have hw : img.width / 2 + (img.width - img.width / 2) = img.width := by omega
    simp only [Rootfs.BaseProcessor.process_quadrants, Image.slice, Image.totalPixels,
      List.map_cons, List.map_nil, List.sum_cons, List.sum_nil, add_zero]
    calc img.height / 2 * (img.width / 2) +
          (img.height / 2 * (img.width - img.width / 2) +
           ((img.height - img.height / 2) * (img.width / 2) +
            (img.height - img.height / 2) * (img.width - img.width / 2)))
        = (img.height / 2 + (img.height - img.height / 2)) *
            (img.width / 2 + (img.width - img.width / 2)) := by ring
      _ = img.height * img.width := by rw [hh, hw]
  · decide

/-- Claim C3 (code bug evidence): for source `Garden` and enabled non-quadrant
processor `Plant`, the sensor ids `_publish_results` publishes under, the key
set of the descriptor map from `get_sensor_configs`, and the ids
`_register_sensors` actually registers are three pairwise incompatible sets:
`total_pixels` is published but appears in no descriptor, and no published id
is ever registered (every state publish of the pipeline fails the
registration lookup). -/
theorem c3_descriptor_publish_mismatch :
    gardenPublishedIds =
      ["brokkoli_analysis_garden_green_pixels",
       "brokkoli_analysis_garden_total_pixels",
       "brokkoli_analysis_garden_green_percentage"] ∧
    plantDescriptorKeys =
      ["brokkoli_analysis_plant_green_pixels",
       "brokkoli_analysis_plant_green_percentage"] ∧
    gardenPlantRegisteredIds =
      ["brokkoli_analysis_garden_plant_green_pixels",
       "brokkoli_analysis_garden_plant_green_percentage"] ∧
    "brokkoli_analysis_garden_total_pixels" ∈ gardenPublishedIds ∧
    "brokkoli_analysis_garden_total_pixels" ∉ plantDescriptorKeys ∧
    ∀ id ∈ gardenPublishedIds, id ∉ gardenPlantRegisteredIds := by
  decide

/-- Claim C4: whenever the supervision loop of `BrokkoliAnalysisApp.run`
observes the client disconnected, it attempts a reconnect; on a successful
reconnect it republishes, before anything else happens in the loop, exactly
the discovery set that `BrokkoliCoordinator.start` published (same sensor
names, identical payloads); a failed attempt publishes nothing, and a
connected tick does nothing. -/
theorem c4_reconnect_replays_discovery (dp : String)
    (processors : List Addon.Processor) :
    (∀ outcome : Bool,
      Addon.AppEvent.connectAttempt outcome ∈
        Addon.appSuperviseTick false dp processors outcome) ∧
    Addon.appSuperviseTick false dp processors true =
      Addon.AppEvent.connectAttempt true ::
        (Addon.coordinatorStartDiscovery dp processors).map Addon.AppEvent.publish ∧
    Addon.appSuperviseTick false dp processors false =
      [Addon.AppEvent.connectAttempt false] ∧
    Addon.appSuperviseTick true dp processors true = [] := by
  refine ⟨?_, rfl, rfl, rfl⟩
  intro outcome
  cases outcome <;> simp [Addon.appSuperviseTick, Addon.coordinatorStartDiscovery]

/-- Claim C7: `publish_sensor_data` succeeds exactly when every entry's
individual `publish_sensor_state` (from the starting state) succeeds; it
never touches the connection flag or the registration table; and its
published log gains precisely the state message of every succeeding entry,
in order — so later entries are attempted and delivered even when an earlier
entry fails. -/
theorem c7_publish_sensor_data_all_attempted (s : Rootfs.MQTTState)
    (sensor_data : List (String × PyValue)) :
    (Rootfs.MQTTClient.publish_sensor_data s sensor_data).1 =
      sensor_data.all (fun kv => (Rootfs.MQTTClient.publish_sensor_state s kv.1 kv.2).1) ∧
    (Rootfs.MQTTClient.publish_sensor_data s sensor_data).2.connected = s.connected ∧
    (Rootfs.MQTTClient.publish_sensor_data s sensor_data).2.registered_sensors =
      s.registered_sensors ∧
    (Rootfs.MQTTClient.publish_sensor_data s sensor_data).2.published =
      s.published ++
        sensor_data.filterMap (fun kv => Rootfs.MQTTClient.stateMsgFor s kv.1 kv.2) := by
  rw [Rootfs.MQTTClient.publish_sensor_data_eq]
  exact ⟨rfl, rfl, rfl, rfl⟩

/-- Claim C1 (counterexample): on a connected client, `register_sensor`
succeeds for a descriptor that declares no `state_topic`, creating a
registration record — yet the subsequent `publish_sensor_state` for that id
fails, contradicting the claim that a publish succeeds for every id with a
registration record created by a prior successful registration. -/
theorem c1_counterexample :
    (Rootfs.MQTTClient.register_sensor s0 "plant_gp" cfgNoTopic).1 = true ∧
    Rootfs.MQTTClient.publish_sensor_state
        (Rootfs.MQTTClient.register_sensor s0 "plant_gp" cfgNoTopic).2
        "plant_gp" (PyValue.int 42) =
      (false, (Rootfs.MQTTClient.register_sensor s0 "plant_gp" cfgNoTopic).2) := by
  constructor
  · rfl
  · rfl

/-- Claim C1 (amended): on a connected client, `publish_sensor_state` fails
for an id with no registration record, leaving the whole client state
unchanged and publishing nothing; it succeeds exactly when the recorded
descriptor declares a non-empty state topic (in particular after a
successful `register_sensor` with such a descriptor), and fails — again with
the state unchanged — when the record exists but declares no (or an empty)
state topic. -/
theorem c1_publish_needs_recorded_topic (s : Rootfs.MQTTState)
    (sensor_id : String) (v : PyValue) (hc : s.connected = true) :
    (dictGet s.registered_sensors sensor_id = none →
      Rootfs.MQTTClient.publish_sensor_state s sensor_id v = (false, s)) ∧
    (∀ cfg t, dictGet s.registered_sensors sensor_id = some cfg →
      cfg.state_topic = some t → t ≠ "" →
      Rootfs.MQTTClient.publish_sensor_state s sensor_id v =
        (true, { s with published := s.published ++ [⟨t, pyStr v, false⟩] })) ∧
    (∀ cfg, dictGet s.registered_sensors sensor_id = some cfg →
      (cfg.state_topic = none ∨ cfg.state_topic = some "") →
      Rootfs.MQTTClient.publish_sensor_state s sensor_id v = (false, s)) ∧
    (∀ cfg t, cfg.state_topic = some t → t ≠ "" →
      (Rootfs.MQTTClient.register_sensor s sensor_id cfg).1 = true ∧
      (Rootfs.MQTTClient.publish_sensor_state
        (Rootfs.MQTTClient.register_sensor s sensor_id cfg).2 sensor_id v).1 = true) := by
  refine ⟨?_, ?_, ?_, ?_⟩
  · intro h
    exact Rootfs.MQTTClient.publish_sensor_state_unregistered s sensor_id v h
  · intro cfg t hg ht hne
    unfold Rootfs.MQTTClient.publish_sensor_state
    simp [hc, hg, ht, hne]
  · intro cfg hg hcase
    unfold Rootfs.MQTTClient.publish_sensor_state
    rcases hcase with h | h <;> simp [hc, hg, h]
  · intro cfg t ht hne
    unfold Rootfs.MQTTClient.register_sensor
    simp only [hc, Bool.not_true, Bool.false_eq_true, if_false]
    refine ⟨rfl, ?_⟩
    unfold Rootfs.MQTTClient.publish_sensor_state
    simp [hc, dictGet_dictSet_self, ht, hne]

/-- Witness for the amended C1 at a concrete connected state: publishing for
an unregistered id fails without side effects, and publishing for the
registered id `a` (whose descriptor records a non-empty state topic)
succeeds. -/
theorem c1_witness :
    Rootfs.MQTTClient.publish_sensor_state sReg "nosuch" (PyValue.int 7) =
      (false, sReg) ∧
    (Rootfs.MQTTClient.publish_sensor_state sReg "a" (PyValue.str "x")).1 = true := by
  constructor
  · exact (c1_publish_needs_recorded_topic sReg "nosuch" (PyValue.int 7) rfl).1 (by decide)
  · have h := (c1_publish_needs_recorded_topic sReg "a" (PyValue.str "x") rfl).2.1
      cfgTopic "brokkoli/a/state" (by decide) (by decide) (by decide)
    rw [h]

theorem dictRemove_eq_of_none {α : Type} (m : List (String × α)) (k : String)
    (h : dictGet m k = none) : dictRemove m k = m := by
  rw [dictGet_eq_none_iff] at h
  unfold dictRemove
  rw [List.filter_eq_self]
  intro kv hkv
  simpa using h kv hkv

/-- Claim C6: after a successful `unregister_sensor`, the id's registration
record is gone, and it stays gone across any operation sequence containing
no re-registration of that id, so every subsequent `publish_sensor_state`
for it fails and leaves the state unchanged; and `unregister_sensor` for an
id with no registration record leaves the registration table untouched. -/
theorem c6_unregister_then_publish_fails (s : Rootfs.MQTTState) (sensor_id : String) :
    ((Rootfs.MQTTClient.unregister_sensor s sensor_id).1 = true →
      ∀ (ops : List Rootfs.MQTTClient.Op),
        (∀ cfg, Rootfs.MQTTClient.Op.register sensor_id cfg ∉ ops) →
        ∀ v : PyValue,
          dictGet (Rootfs.MQTTClient.run
              (Rootfs.MQTTClient.unregister_sensor s sensor_id).2 ops).registered_sensors
            sensor_id = none ∧
          Rootfs.MQTTClient.publish_sensor_state
              (Rootfs.MQTTClient.run
                (Rootfs.MQTTClient.unregister_sensor s sensor_id).2 ops)
              sensor_id v =
            (false,
             Rootfs.MQTTClient.run
               (Rootfs.MQTTClient.unregister_sensor s sensor_id).2 ops)) ∧
    (dictGet s.registered_sensors sensor_id = none →
      (Rootfs.MQTTClient.unregister_sensor s sensor_id).2.registered_sensors =
        s.registered_sensors) := by
  constructor
  · intro hok ops hops v
    have hstart : dictGet
        (Rootfs.MQTTClient.unregister_sensor s sensor_id).2.registered_sensors
        sensor_id = none := by
      unfold Rootfs.MQTTClient.unregister_sensor at hok ⊢
      by_cases hc : s.connected
      · simp [hc, dictGet_dictRemove_self]
      · simp [hc] at hok
    have hrun := Rootfs.MQTTClient.run_registered_none ops _ sensor_id hstart hops
    exact ⟨hrun,
      Rootfs.MQTTClient.publish_sensor_state_unregistered _ sensor_id v hrun⟩
  · intro h
    unfold Rootfs.MQTTClient.unregister_sensor
    by_cases hc : s.connected
    · simp [hc, dictRemove_eq_of_none _ _ h]
    · simp [hc]

/-- Witness for C6 at a concrete state: after unregistering `a` and running
a publish, a disconnect and a reconnect (no re-registration), publishing for
`a` fails and changes nothing; and unregistering the never-registered id
`ghost` leaves the registration table of `s0` unchanged. -/
theorem c6_witness :
    (Rootfs.MQTTClient.publish_sensor_state
        (Rootfs.MQTTClient.run (Rootfs.MQTTClient.unregister_sensor sReg "a").2 opsW)
        "a" (PyValue.int 3) =
      (false,
       Rootfs.MQTTClient.run (Rootfs.MQTTClient.unregister_sensor sReg "a").2 opsW)) ∧
    (Rootfs.MQTTClient.unregister_sensor s0 "ghost").2.registered_sensors =
      s0.registered_sensors := by
  constructor
  · exact ((c6_unregister_then_publish_fails sReg "a").1 rfl opsW
      (by intro cfg; simp [opsW]) (PyValue.int 3)).2
  · exact (c6_unregister_then_publish_fails s0 "ghost").2 (by decide)

/-- Claim C9 (counterexample): for the registered sensor `a`, publishing the
non-numeric value `"on"` hands the broker the bare text `on` — Python
`str(state)` — which differs from the structured JSON encoding `"on"` the
claim prescribes for non-numeric values. -/
theorem c9_counterexample :
    (Rootfs.MQTTClient.publish_sensor_state sReg "a" (PyValue.str "on")).2.published =
      [⟨"brokkoli/a/state", "on", false⟩] ∧
    pyStr (PyValue.str "on") ≠ pyJson (PyValue.str "on") := by
  constructor
  · rfl
  · decide

/-- Claim C9 (amended): `publish_sensor_state` serializes every value with
Python `str(...)` (numeric values as plain decimal text, but strings as
their bare text, not a JSON encoding) and publishes non-retained to the
state topic recorded at registration; the numeric-as-text /
everything-else-as-JSON split the claim describes is the behaviour of the
other tree's `publish_state`. -/
theorem c9_state_serialization (s : Rootfs.MQTTState) (sensor_id : String)
    (v : PyValue) (cfg : Rootfs.SensorConfig) (t : String)
    (hc : s.connected = true)
    (hg : dictGet s.registered_sensors sensor_id = some cfg)
    (ht : cfg.state_topic = some t) (hne : t ≠ "") :
    Rootfs.MQTTClient.publish_sensor_state s sensor_id v =
      (true, { s with published := s.published ++ [⟨t, pyStr v, false⟩] }) ∧
    ∀ (published : List Msg) (topic : String) (retain : Bool),
      Addon.MQTTClient.publish_state true published topic v retain =
        published ++
          [⟨topic, if isNumeric v then pyStr v else pyJson v, retain⟩] := by
  constructor
  · unfold Rootfs.MQTTClient.publish_sensor_state
    simp [hc, hg, ht, hne]
  · intro published topic retain
    unfold Addon.MQTTClient.publish_state
    simp

/-- Witness for the amended C9: publishing the string `on` for the
registered sensor `a` puts the bare text on the recorded topic,
non-retained; and the other tree's `publish_state` JSON-encodes the same
value. -/
theorem c9_witness :
    Rootfs.MQTTClient.publish_sensor_state sReg "a" (PyValue.str "on") =
      (true, { sReg with published :=
        sReg.published ++ [⟨"brokkoli/a/state", pyStr (PyValue.str "on"), false⟩] }) ∧
    Addon.MQTTClient.publish_state true [] "brokkoli/a" (PyValue.str "on") false =
      [⟨"brokkoli/a",
        if isNumeric (PyValue.str "on") then pyStr (PyValue.str "on")
        else pyJson (PyValue.str "on"), false⟩] := by
  constructor
  · exact (c9_state_serialization sReg "a" (PyValue.str "on") cfgTopic
      "brokkoli/a/state" rfl (by decide) (by decide) (by decide)).1
  · exact (c9_state_serialization sReg "a" (PyValue.str "on") cfgTopic
      "brokkoli/a/state" rfl (by decide) (by decide) (by decide)).2 [] "brokkoli/a" false

/-- Claim C8: once `get_latest_frame` successfully delivers a frame at time
`t1`, a second call at any time `t2` with `t2 − t1` below the configured
minimum update interval — and no change to the folder state in between —
returns no frame and leaves the source state unchanged. -/
theorem c8_second_call_within_interval (s : Addon.FolderSourceState)
    (t1 t2 : ℤ) (img : Image) (imread2 : Option Image)
    (hdeliv : (Addon.FolderSource.get_latest_frame s t1 (some img)).1.isSome = true)
    (ht1 : t1 ≠ 0)
    (hint : t2 - t1 < s.update_interval) :
    Addon.FolderSource.get_latest_frame
        (Addon.FolderSource.get_latest_frame s t1 (some img)).2 t2 imread2 =
      (none, (Addon.FolderSource.get_latest_frame s t1 (some img)).2) := by
  unfold Addon.FolderSource.get_latest_frame at hdeliv ⊢
  by_cases hcand : s.hasCandidate
  · by_cases g2 : Addon.timeTruthy s.last_processed_time ∧
        t1 - s.last_processed_time.getD 0 < s.update_interval
    · simp [hcand, g2] at hdeliv
    · by_cases g3 : Addon.timeTruthy s.last_processed_time ∧
          Addon.timeTruthy s.latest_image_time ∧
          s.latest_image_time.getD 0 ≤ s.last_processed_time.getD 0
      · simp [hcand, g2, g3] at hdeliv
      · simp only [hcand, g2, g3]
        simp [Addon.timeTruthy, ht1, hint]
  · simp [hcand] at hdeliv

/-- Witness for C8: the source `fsW` delivers a frame at time 200 and then,
at time 220 (within the 30-second interval), returns no frame. -/
theorem c8_witness :
    Addon.FolderSource.get_latest_frame
        (Addon.FolderSource.get_latest_frame fsW 200 (some img11)).2 220 none =
      (none, (Addon.FolderSource.get_latest_frame fsW 200 (some img11)).2) :=
  c8_second_call_within_interval fsW 200 220 img11 none rfl (by decide) (by decide)

/-- Claim C2 (counterexample): on a frame with zero total pixels the enabled
rootfs processor does not report a matched-percentage of 0 — the
`ZeroDivisionError` is caught and the whole result map is empty, so there is
no `green_percentage` entry at all. -/
theorem c2_counterexample :
    Rootfs.GreenPixelsProcessor.process sampleClassifier ⟨true, false⟩ img05 = [] ∧
    dictGet (Rootfs.GreenPixelsProcessor.process sampleClassifier ⟨true, false⟩ img05)
      "green_percentage" ≠ some (Rootfs.RVal.rat 0) := by
  refine ⟨rfl, ?_⟩
  decide

/-- Claim C2 (amended): whenever the rootfs processor's result map contains a
matched-percentage, it is `matched/total × 100` rounded to two decimals —
within `1/200` of the exact ratio; on a zero-pixel frame the rootfs
`process` returns the empty map (the division error is caught, never a
fault), while the `brokkoli-analysis` tree's `_count_green_pixels` is the
variant that reports percentage 0 at zero total. -/
theorem c2_percentage_formula :
    (∀ (isGreen : Pixel → Bool) (cfg : Rootfs.ProcConfig) (img : Image) (p : ℚ),
      dictGet (Rootfs.GreenPixelsProcessor.process isGreen cfg img)
        "green_percentage" = some (Rootfs.RVal.rat p) →
      p = Rootfs.round2
            ((countGreen isGreen img : ℚ) / (img.totalPixels : ℚ) * 100) ∧
      |p - (countGreen isGreen img : ℚ) / (img.totalPixels : ℚ) * 100| ≤ 1 / 200) ∧
    (∀ (isGreen : Pixel → Bool) (cfg : Rootfs.ProcConfig) (img : Image),
      img.totalPixels = 0 →
      Rootfs.GreenPixelsProcessor.process isGreen cfg img = []) ∧
    (∀ (isGreen : Pixel → Bool) (img : Image), img.totalPixels = 0 →
      (Addon.GreenPixelsProcessor.count_green_pixels isGreen img).2.2 = 0) := by
  have k1 : ("green_pixels" : String) ≠ "green_percentage" := by decide
  have k2 : ("total_pixels" : String) ≠ "green_percentage" := by decide
  refine ⟨?_, ?_, ?_⟩
  · intro isGreen cfg img p h
    unfold Rootfs.GreenPixelsProcessor.process at h
    by_cases he : cfg.enabled
    · by_cases h0 : img.totalPixels = 0
      · simp [he, h0, dictGet] at h
      · by_cases hq : cfg.quadrants
        · by_cases hz : img.height / 2 = 0 ∨ img.width / 2 = 0
          · simp [he, h0, hq, hz, dictGet] at h
          · simp [he, h0, hq, hz, dictGet, k1, k2] at h
            refine ⟨h.symm, ?_⟩
            rw [← h]
            exact Rootfs.round2_close _
        · simp [he, h0, hq, dictGet, k1, k2] at h
          refine ⟨h.symm, ?_⟩
          rw [← h]
          exact Rootfs.round2_close _
    · simp [he, dictGet] at h
  · intro isGreen cfg img h0
    unfold Rootfs.GreenPixelsProcessor.process
    by_cases he : cfg.enabled <;> simp [he, h0]
  · intro isGreen img h0
    unfold Addon.GreenPixelsProcessor.count_green_pixels
    simp [h0]

/-- Witness for the amended C2: the rounded percentage of a concrete 1 × 2
frame is within `1/200` of the exact ratio; the enabled processor returns
the empty map on a zero-row frame; and `_count_green_pixels` reports
percentage 0 there. -/
theorem c2_witness :
    |Rootfs.round2 ((countGreen sampleClassifier img12 : ℚ) /
        (img12.totalPixels : ℚ) * 100) -
      (countGreen sampleClassifier img12 : ℚ) / (img12.totalPixels : ℚ) * 100| ≤
      1 / 200 ∧
    Rootfs.GreenPixelsProcessor.process sampleClassifier ⟨true, true⟩ img05 = [] ∧
    (Addon.GreenPixelsProcessor.count_green_pixels sampleClassifier img05).2.2 = 0 :=
  ⟨(c2_percentage_formula.1 sampleClassifier ⟨true, false⟩ img12 _ rfl).2,
   c2_percentage_formula.2.1 sampleClassifier ⟨true, true⟩ img05 (by decide),
   c2_percentage_formula.2.2 sampleClassifier img05 (by decide)⟩

/-- Claim C10: for every positive-sized RGB frame, the enabled non-quadrant
green-pixels processor returns a map with exactly the keys `green_pixels`,
`total_pixels`, `green_percentage`; the total is `h × w`, the green count is
between 0 and the total, and the percentage lies in `[0, 100]`. -/
theorem c10_nonquadrant_result_shape (isGreen : Pixel → Bool) (img : Image)
    (hh : 0 < img.height) (hw : 0 < img.width) :
    (Rootfs.GreenPixelsProcessor.process isGreen ⟨true, false⟩ img).map Prod.fst =
      ["green_pixels", "total_pixels", "green_percentage"] ∧
    dictGet (Rootfs.GreenPixelsProcessor.process isGreen ⟨true, false⟩ img)
      "total_pixels" = some (Rootfs.RVal.nat img.totalPixels) ∧
    dictGet (Rootfs.GreenPixelsProcessor.process isGreen ⟨true, false⟩ img)
      "green_pixels" = some (Rootfs.RVal.nat (countGreen isGreen img)) ∧
    countGreen isGreen img ≤ img.totalPixels ∧
    ∃ p : ℚ,
      dictGet (Rootfs.GreenPixelsProcessor.process isGreen ⟨true, false⟩ img)
        "green_percentage" = some (Rootfs.RVal.rat p) ∧
      0 ≤ p ∧ p ≤ 100 := by
  have h0 : img.totalPixels ≠ 0 := by
    unfold Image.totalPixels
    exact Nat.mul_ne_zero (by omega) (by omega)
  have k12 : ("green_pixels" : String) ≠ "total_pixels" := by decide
  have k13 : ("green_pixels" : String) ≠ "green_percentage" := by decide
  have k23 : ("total_pixels" : String) ≠ "green_percentage" := by decide
  have hg := countGreen_le_total isGreen img
  have htpos : (0 : ℚ) < (img.totalPixels : ℚ) := by
    exact_mod_cast Nat.pos_of_ne_zero h0
  set x : ℚ := (countGreen isGreen img : ℚ) / (img.totalPixels : ℚ) * 100 with hx
  have hq1 : (countGreen isGreen img : ℚ) / (img.totalPixels : ℚ) ≤ 1 := by
    rw [div_le_one htpos]
    exact_mod_cast hg
  have hx0 : 0 ≤ x := by
    rw [hx]
    positivity
  have hx1 : x ≤ 100 := by
    rw [hx]
    have := mul_le_mul_of_nonneg_right hq1 (show (0 : ℚ) ≤ 100 by norm_num)
    simpa using this
  obtain ⟨hp0, hp1⟩ := Rootfs.round2_bounds x hx0 hx1
  refine ⟨?_, ?_, ?_, hg, Rootfs.round2 x, ?_, hp0, hp1⟩
  · simp [Rootfs.GreenPixelsProcessor.process, h0]
  · simp [Rootfs.GreenPixelsProcessor.process, h0, dictGet, k12]
  · simp [Rootfs.GreenPixelsProcessor.process, h0, dictGet]
  · simp [Rootfs.GreenPixelsProcessor.process, h0, dictGet, k13, k23, hx]

/-- Witness for C10 on a concrete 1 × 2 frame: the result map has exactly
the three whole-image keys. -/
theorem c10_witness :
    (Rootfs.GreenPixelsProcessor.process sampleClassifier ⟨true, false⟩ img12).map
      Prod.fst = ["green_pixels", "total_pixels", "green_percentage"] :=
  (c10_nonquadrant_result_shape sampleClassifier img12 (by decide) (by decide)).1
